import Mathlib

/-!
Shallow embedding of the core logic of `val_smoke_timer` (Rust):
the input-binding data model and string (de)serialisation from
`src/config.rs`, and the sequence detector plus timer-pool scheduler
from `src/main.rs`.  Time is modelled as a `Nat` count of milliseconds
(the source uses `std::time::Instant` and millisecond durations).
-/

namespace ValSmokeTimer

/-- The physical keyboard keys of the `rdev::Key` enum, exactly the
variants handled by `key_to_string` in `src/config.rs` (the Rust match is
exhaustive over the enum), with `Unknown` carrying its numeric code. -/
inductive Key where
  | Alt | AltGr | Backspace | CapsLock | ControlLeft | ControlRight
  | Delete | DownArrow | End | Escape
  | F1 | F2 | F3 | F4 | F5 | F6 | F7 | F8 | F9 | F10 | F11 | F12
  | F13 | F14 | F15 | F16 | F17 | F18 | F19 | F20 | F21 | F22 | F23 | F24
  | Home | LeftArrow | MetaLeft | MetaRight | PageDown | PageUp
  | Return | RightArrow | ShiftLeft | ShiftRight | Space | Tab | UpArrow
  | PrintScreen | ScrollLock | Pause | NumLock | BackQuote
  | Num1 | Num2 | Num3 | Num4 | Num5 | Num6 | Num7 | Num8 | Num9 | Num0
  | Minus | Equal
  | KeyQ | KeyW | KeyE | KeyR | KeyT | KeyY | KeyU | KeyI | KeyO | KeyP
  | LeftBracket | RightBracket
  | KeyA | KeyS | KeyD | KeyF | KeyG | KeyH | KeyJ | KeyK | KeyL
  | SemiColon | Quote | BackSlash | IntlBackslash
  | KeyZ | KeyX | KeyC | KeyV | KeyB | KeyN | KeyM
  | Comma | Dot | Slash | Insert
  | KpReturn | KpMinus | KpPlus | KpMultiply | KpDivide
  | Kp0 | Kp1 | Kp2 | Kp3 | Kp4 | Kp5 | Kp6 | Kp7 | Kp8 | Kp9 | KpDelete
  | Function
  | VolumeUp | VolumeDown | VolumeMute | BrightnessUp | BrightnessDown
  | PreviousTrack | PlayPause | PlayCd | NextTrack
  | Unknown (code : Nat)

/-- The mouse buttons of the `rdev::Button` enum. -/
inductive Button where
  | Left | Right | Middle
  | Unknown (code : Nat)

/-- `key_to_string` from `src/config.rs`. -/
def keyToString : Key → String
  | .Alt => "Alt"
  | .AltGr => "AltGr"
  | .Backspace => "Backspace"
  | .CapsLock => "CapsLock"
  | .ControlLeft => "ControlLeft"
  | .ControlRight => "ControlRight"
  | .Delete => "Delete"
  | .DownArrow => "DownArrow"
  | .End => "End"
  | .Escape => "Escape"
  | .F1 => "F1"
  | .F2 => "F2"
  | .F3 => "F3"
  | .F4 => "F4"
  | .F5 => "F5"
  | .F6 => "F6"
  | .F7 => "F7"
  | .F8 => "F8"
  | .F9 => "F9"
  | .F10 => "F10"
  | .F11 => "F11"
  | .F12 => "F12"
  | .F13 => "F13"
  | .F14 => "F14"
  | .F15 => "F15"
  | .F16 => "F16"
  | .F17 => "F17"
  | .F18 => "F18"
  | .F19 => "F19"
  | .F20 => "F20"
  | .F21 => "F21"
  | .F22 => "F22"
  | .F23 => "F23"
  | .F24 => "F24"
  | .Home => "Home"
  | .LeftArrow => "LeftArrow"
  | .MetaLeft => "MetaLeft"
  | .MetaRight => "MetaRight"
  | .PageDown => "PageDown"
  | .PageUp => "PageUp"
  | .Return => "Return"
  | .RightArrow => "RightArrow"
  | .ShiftLeft => "ShiftLeft"
  | .ShiftRight => "ShiftRight"
  | .Space => "Space"
  | .Tab => "Tab"
  | .UpArrow => "UpArrow"
  | .PrintScreen => "PrintScreen"
  | .ScrollLock => "ScrollLock"
  | .Pause => "Pause"
  | .NumLock => "NumLock"
  | .BackQuote => "BackQuote"
  | .Num1 => "Num1"
  | .Num2 => "Num2"
  | .Num3 => "Num3"
  | .Num4 => "Num4"
  | .Num5 => "Num5"
  | .Num6 => "Num6"
  | .Num7 => "Num7"
  | .Num8 => "Num8"
  | .Num9 => "Num9"
  | .Num0 => "Num0"
  | .Minus => "Minus"
  | .Equal => "Equal"
  | .KeyQ => "KeyQ"
  | .KeyW => "KeyW"
  | .KeyE => "KeyE"
  | .KeyR => "KeyR"
  | .KeyT => "KeyT"
  | .KeyY => "KeyY"
  | .KeyU => "KeyU"
  | .KeyI => "KeyI"
  | .KeyO => "KeyO"
  | .KeyP => "KeyP"
  | .LeftBracket => "LeftBracket"
  | .RightBracket => "RightBracket"
  | .KeyA => "KeyA"
  | .KeyS => "KeyS"
  | .KeyD => "KeyD"
  | .KeyF => "KeyF"
  | .KeyG => "KeyG"
  | .KeyH => "KeyH"
  | .KeyJ => "KeyJ"
  | .KeyK => "KeyK"
  | .KeyL => "KeyL"
  | .SemiColon => "SemiColon"
  | .Quote => "Quote"
  | .BackSlash => "BackSlash"
  | .IntlBackslash => "IntlBackslash"
  | .KeyZ => "KeyZ"
  | .KeyX => "KeyX"
  | .KeyC => "KeyC"
  | .KeyV => "KeyV"
  | .KeyB => "KeyB"
  | .KeyN => "KeyN"
  | .KeyM => "KeyM"
  | .Comma => "Comma"
  | .Dot => "Dot"
  | .Slash => "Slash"
  | .Insert => "Insert"
  | .KpReturn => "KpReturn"
  | .KpMinus => "KpMinus"
  | .KpPlus => "KpPlus"
  | .KpMultiply => "KpMultiply"
  | .KpDivide => "KpDivide"
  | .Kp0 => "Kp0"
  | .Kp1 => "Kp1"
  | .Kp2 => "Kp2"
  | .Kp3 => "Kp3"
  | .Kp4 => "Kp4"
  | .Kp5 => "Kp5"
  | .Kp6 => "Kp6"
  | .Kp7 => "Kp7"
  | .Kp8 => "Kp8"
  | .Kp9 => "Kp9"
  | .KpDelete => "KpDelete"
  | .Function => "Function"
  | .VolumeUp => "VolumeUp"
  | .VolumeDown => "VolumeDown"
  | .VolumeMute => "VolumeMute"
  | .BrightnessUp => "BrightnessUp"
  | .BrightnessDown => "BrightnessDown"
  | .PreviousTrack => "PreviousTrack"
  | .PlayPause => "PlayPause"
  | .PlayCd => "PlayCd"
  | .NextTrack => "NextTrack"
  | .Unknown code => "Unknown(" ++ toString code ++ ")"

/-- `string_to_key` from `src/config.rs`. -/
def stringToKey : String → Option Key
  | "Alt" => some .Alt
  | "AltGr" => some .AltGr
  | "Backspace" => some .Backspace
  | "CapsLock" => some .CapsLock
  | "ControlLeft" => some .ControlLeft
  | "ControlRight" => some .ControlRight
  | "Delete" => some .Delete
  | "DownArrow" => some .DownArrow
  | "End" => some .End
  | "Escape" => some .Escape
  | "F1" => some .F1
  | "F2" => some .F2
  | "F3" => some .F3
  | "F4" => some .F4
  | "F5" => some .F5
  | "F6" => some .F6
  | "F7" => some .F7
  | "F8" => some .F8
  | "F9" => some .F9
  | "F10" => some .F10
  | "F11" => some .F11
  | "F12" => some .F12
  | "F13" => some .F13
  | "F14" => some .F14
  | "F15" => some .F15
  | "F16" => some .F16
  | "F17" => some .F17
  | "F18" => some .F18
  | "F19" => some .F19
  | "F20" => some .F20
  | "F21" => some .F21
  | "F22" => some .F22
  | "F23" => some .F23
  | "F24" => some .F24
  | "Home" => some .Home
  | "LeftArrow" => some .LeftArrow
  | "MetaLeft" => some .MetaLeft
  | "MetaRight" => some .MetaRight
  | "PageDown" => some .PageDown
  | "PageUp" => some .PageUp
  | "Return" => some .Return
  | "RightArrow" => some .RightArrow
  | "ShiftLeft" => some .ShiftLeft
  | "ShiftRight" => some .ShiftRight
  | "Space" => some .Space
  | "Tab" => some .Tab
  | "UpArrow" => some .UpArrow
  | "PrintScreen" => some .PrintScreen
  | "ScrollLock" => some .ScrollLock
  | "Pause" => some .Pause
  | "NumLock" => some .NumLock
  | "BackQuote" => some .BackQuote
  | "Num1" => some .Num1
  | "Num2" => some .Num2
  | "Num3" => some .Num3
  | "Num4" => some .Num4
  | "Num5" => some .Num5
  | "Num6" => some .Num6
  | "Num7" => some .Num7
  | "Num8" => some .Num8
  | "Num9" => some .Num9
  | "Num0" => some .Num0
  | "Minus" => some .Minus
  | "Equal" => some .Equal
  | "KeyQ" => some .KeyQ
  | "KeyW" => some .KeyW
  | "KeyE" => some .KeyE
  | "KeyR" => some .KeyR
  | "KeyT" => some .KeyT
  | "KeyY" => some .KeyY
  | "KeyU" => some .KeyU
  | "KeyI" => some .KeyI
  | "KeyO" => some .KeyO
  | "KeyP" => some .KeyP
  | "LeftBracket" => some .LeftBracket
  | "RightBracket" => some .RightBracket
  | "KeyA" => some .KeyA
  | "KeyS" => some .KeyS
  | "KeyD" => some .KeyD
  | "KeyF" => some .KeyF
  | "KeyG" => some .KeyG
  | "KeyH" => some .KeyH
  | "KeyJ" => some .KeyJ
  | "KeyK" => some .KeyK
  | "KeyL" => some .KeyL
  | "SemiColon" => some .SemiColon
  | "Quote" => some .Quote
  | "BackSlash" => some .BackSlash
  | "IntlBackslash" => some .IntlBackslash
  | "KeyZ" => some .KeyZ
  | "KeyX" => some .KeyX
  | "KeyC" => some .KeyC
  | "KeyV" => some .KeyV
  | "KeyB" => some .KeyB
  | "KeyN" => some .KeyN
  | "KeyM" => some .KeyM
  | "Comma" => some .Comma
  | "Dot" => some .Dot
  | "Slash" => some .Slash
  | "Insert" => some .Insert
  | "KpReturn" => some .KpReturn
  | "KpMinus" => some .KpMinus
  | "KpPlus" => some .KpPlus
  | "KpMultiply" => some .KpMultiply
  | "KpDivide" => some .KpDivide
  | "Kp0" => some .Kp0
  | "Kp1" => some .Kp1
  | "Kp2" => some .Kp2
  | "Kp3" => some .Kp3
  | "Kp4" => some .Kp4
  | "Kp5" => some .Kp5
  | "Kp6" => some .Kp6
  | "Kp7" => some .Kp7
  | "Kp8" => some .Kp8
  | "Kp9" => some .Kp9
  | "KpDelete" => some .KpDelete
  | "Function" => some .Function
  | "VolumeUp" => some .VolumeUp
  | "VolumeDown" => some .VolumeDown
  | "VolumeMute" => some .VolumeMute
  | "BrightnessUp" => some .BrightnessUp
  | "BrightnessDown" => some .BrightnessDown
  | "PreviousTrack" => some .PreviousTrack
  | "PlayPause" => some .PlayPause
  | "PlayCd" => some .PlayCd
  | "NextTrack" => some .NextTrack
  | _ => none

/-- `button_to_string` from `src/config.rs`. -/
def buttonToString : Button → String
  | .Left => "Left"
  | .Right => "Right"
  | .Middle => "Middle"
  | .Unknown code => "Unknown(" ++ toString code ++ ")"

/-- `string_to_button` from `src/config.rs`. -/
def stringToButton : String → Option Button
  | "Left" => some .Left
  | "Right" => some .Right
  | "Middle" => some .Middle
  | _ => none

/-- The `InputBinding` enum from `src/config.rs`: a tagged union over a
keyboard key and a mouse button. -/
inductive InputBinding where
  | Key (key : Key)
  | Mouse (button : Button)

/-- Model of Rust `str::strip_prefix` on character lists: `dropPre p s`
returns the remainder of `s` after the leading occurrence of `p`, or
`none` when `p` is not a leading segment of `s`. -/
def dropPre : List Char → List Char → Option (List Char)
  | [], rest => some rest
  | _ :: _, [] => none
  | p :: ps, c :: cs => if c = p then dropPre ps cs else none

/-- `InputBinding::from_string` from `src/config.rs`: first try the
`"Key:"` prefix, then the `"Mouse:"` prefix, then the hardcoded legacy
alias `"RightMouse"`, and finally fall back to reading the whole string
as a key name. -/
def InputBinding.fromString (s : String) : Option InputBinding :=
  match dropPre "Key:".toList s.toList with
  | some rest => (stringToKey (String.mk rest)).map InputBinding.Key
  | none =>
    match dropPre "Mouse:".toList s.toList with
    | some rest => (stringToButton (String.mk rest)).map InputBinding.Mouse
    | none =>
      if s = "RightMouse" then some (InputBinding.Mouse Button.Right)
      else (stringToKey s).map InputBinding.Key

/-- The `Display` implementation of `InputBinding` from `src/config.rs`. -/
def InputBinding.toStr : InputBinding → String
  | .Key key => "Key:" ++ keyToString key
  | .Mouse button => "Mouse:" ++ buttonToString button

/-- The subset of the `Config` struct (`src/config.rs`) consumed by the
sequence detector and the timer-pool scheduler.  `timer_start` is stored
in the source as seconds (`f32`) and converted to milliseconds with
`(timer_start * 1000.0) as u64` before use; here `timer_start_ms` is that
millisecond value directly. -/
structure Config where
  start_key : String
  cancelable_keys : List String
  confirm_key : String
  timer_start_ms : Nat
  max_timers : Nat
  add_new_on_left : Bool
  overwrite_oldest : Bool

/-- The `InputEvent` enum from `src/main.rs`. -/
inductive InputEvent where
  | KeyPress (key : Key)
  | MousePress (button : Button)

/-- The `SequenceDetector` struct from `src/main.rs`. -/
structure SequenceDetector where
  waiting_for_confirm : Bool
  start_binding : InputBinding
  confirm_binding : InputBinding
  cancel_keys : List Key
  cancel_buttons : List Button

/-- `SequenceDetector::new` from `src/main.rs`: parse the configured
binding strings, falling back to `Key::KeyE` for the start binding and
`Button::Right` for the confirm binding when parsing yields nothing, and
split the parseable cancel bindings into key and button lists. -/
def SequenceDetector.new (c : Config) : SequenceDetector :=
  { waiting_for_confirm := false
    start_binding := (InputBinding.fromString c.start_key).getD (.Key .KeyE)
    confirm_binding := (InputBinding.fromString c.confirm_key).getD (.Mouse .Right)
    cancel_keys := c.cancelable_keys.filterMap (fun s =>
      match InputBinding.fromString s with
      | some (.Key k) => some k
      | _ => none)
    cancel_buttons := c.cancelable_keys.filterMap (fun s =>
      match InputBinding.fromString s with
      | some (.Mouse b) => some b
      | _ => none) }

/-- `SequenceDetector::on_input` from `src/main.rs`, as a pure function
returning the updated detector and the `bool` the method returns (`true`
means a completed sequence, i.e. one `StartTimer` command is sent). -/
def onInput (d : SequenceDetector) (input : InputEvent) : SequenceDetector × Bool :=
  match input with
  | .KeyPress key =>
    if d.waiting_for_confirm = false then
      match d.start_binding with
      | .Key start_key =>
        if keyToString key = keyToString start_key then
          ({ d with waiting_for_confirm := true }, false)
        else (d, false)
      | .Mouse _ => (d, false)
    else if d.cancel_keys.any (fun k => keyToString k = keyToString key) then
      ({ d with waiting_for_confirm := false }, false)
    else
      match d.confirm_binding with
      | .Key confirm_key =>
        if keyToString key = keyToString confirm_key then
          ({ d with waiting_for_confirm := false }, true)
        else (d, false)
      | .Mouse _ => (d, false)
  | .MousePress button =>
    if d.waiting_for_confirm = false then
      match d.start_binding with
      | .Mouse start_button =>
        if buttonToString button = buttonToString start_button then
          ({ d with waiting_for_confirm := true }, false)
        else (d, false)
      | .Key _ => (d, false)
    else if d.cancel_buttons.any (fun b => buttonToString b = buttonToString button) then
      ({ d with waiting_for_confirm := false }, false)
    else
      match d.confirm_binding with
      | .Mouse confirm_button =>
        if buttonToString button = buttonToString confirm_button then
          ({ d with waiting_for_confirm := false }, true)
        else (d, false)
      | .Key _ => (d, false)

/-- The `Timer` struct from `src/main.rs`: only the fixed end instant,
here in milliseconds. -/
structure Timer where
  end_time : Nat
  deriving DecidableEq

/-- `Timer::new` from `src/main.rs`: `end_time = Instant::now() + duration`. -/
def Timer.new (now duration_ms : Nat) : Timer :=
  { end_time := now + duration_ms }

/-- `Timer::remaining_ms` from `src/main.rs`: zero once `now` has reached
`end_time`, the millisecond difference (an `i64` in the source) before. -/
def Timer.remaining_ms (t : Timer) (now : Nat) : Int :=
  if now ≥ t.end_time then 0 else ((t.end_time - now : Nat) : Int)

/-- `Timer::is_finished` from `src/main.rs`. -/
def Timer.is_finished (t : Timer) (now : Nat) : Bool :=
  t.remaining_ms now ≤ 0

/-- The command-application half of `TimerState::update` from
`src/main.rs`: how one `Command::StartTimer` transforms the timer pool.
(When the pool is full, not overwriting, the command is dropped.  The
source's `remove(0)` on a `Vec` known non-empty is modelled by `tail`;
with a positive capacity the full-pool branch always sees a non-empty
pool.) -/
def applyStart (c : Config) (timers : List Timer) (now : Nat) : List Timer :=
  let t := Timer.new now c.timer_start_ms
  if timers.length < c.max_timers then
    if c.add_new_on_left then t :: timers else timers ++ [t]
  else if c.overwrite_oldest then
    if c.add_new_on_left then t :: timers.dropLast
    else timers.tail ++ [t]
  else timers

/-- The pruning half of `TimerState::update` from `src/main.rs`:
`self.timers.retain(|timer| !timer.is_finished())`. -/
def tick (timers : List Timer) (now : Nat) : List Timer :=
  timers.filter (fun t => !(t.is_finished now))

/-- The per-tick rendering snapshot of `TimerState::update` from
`src/main.rs`: for each surviving timer, in pool order, its remaining
milliseconds and its displayed `smoke_number`
(`timers.len() - i` when `add_new_on_left`, `i + 1` otherwise). -/
def snapshot (c : Config) (timers : List Timer) (now : Nat) : List (Int × Nat) :=
  let pruned := tick timers now
  pruned.enum.map (fun p =>
    (Timer.remaining_ms p.2 now,
     if c.add_new_on_left then pruned.length - p.1 else p.1 + 1))

/-- The raw input event that carries exactly the physical input of a
binding: a key press for a keyboard binding, a button press for a mouse
binding. -/
def eventOf : InputBinding → InputEvent
  | .Key k => .KeyPress k
  | .Mouse b => .MousePress b

/-- The configured confirm binding is not among the cancel bindings
(matching, as the detector does, on the normalized string form). -/
def confirmNotCancel (d : SequenceDetector) : Prop :=
  match d.confirm_binding with
  | .Key k => ∀ c ∈ d.cancel_keys, keyToString c ≠ keyToString k
  | .Mouse b => ∀ c ∈ d.cancel_buttons, buttonToString c ≠ buttonToString b

/-- A binding whose identifier is one of the named variants, i.e. not
`Key::Unknown` and not `Button::Unknown`. -/
def namedBinding : InputBinding → Bool
  | .Key (.Unknown _) => false
  | .Mouse (.Unknown _) => false
  | _ => true

/-- `dropPre` recovers the remainder after a literal leading segment. -/
theorem dropPre_append (p t : List Char) : dropPre p (p ++ t) = some t := by
  induction p with
  | nil => rfl
  | cons c cs ih => simp [dropPre, ih]

/-- Claim C1: for every configuration, feeding the detector the event
matching `start_binding` while in Idle and then the event matching
`confirm_binding` (where `confirm_binding` is not among the cancel
bindings) emits no command on the first event, arms the detector, emits
exactly one command on the second event, and returns the detector to
Idle. -/
theorem basic_trigger (d : SequenceDetector)
    (h0 : d.waiting_for_confirm = false) (h1 : confirmNotCancel d) :
    (onInput d (eventOf d.start_binding)).2 = false ∧
    (onInput d (eventOf d.start_binding)).1.waiting_for_confirm = true ∧
    (onInput (onInput d (eventOf d.start_binding)).1 (eventOf d.confirm_binding)).2 = true ∧
    (onInput (onInput d (eventOf d.start_binding)).1
      (eventOf d.confirm_binding)).1.waiting_for_confirm = false := by
  obtain ⟨w, sb, cb, cks, cbs⟩ := d
  cases w with
  | true => simp at h0
  | false =>
    cases sb with
    | Key k =>
      cases cb with
      | Key ck =>
        simp only [confirmNotCancel] at h1
        have hany : cks.any (fun c => keyToString c = keyToString ck) = false := by
          rw [List.any_eq_false]
          intro c hc
          simpa using h1 c hc
        simp [onInput, eventOf, hany]
      | Mouse cbt =>
        simp only [confirmNotCancel] at h1
        have hany : cbs.any (fun c => buttonToString c = buttonToString cbt) = false := by
          rw [List.any_eq_false]
          intro c hc
          simpa using h1 c hc
        simp [onInput, eventOf, hany]
    | Mouse b =>
      cases cb with
      | Key ck =>
        simp only [confirmNotCancel] at h1
        have hany : cks.any (fun c => keyToString c = keyToString ck) = false := by
          rw [List.any_eq_false]
          intro c hc
          simpa using h1 c hc
        simp [onInput, eventOf, hany]
      | Mouse cbt =>
        simp only [confirmNotCancel] at h1
        have hany : cbs.any (fun c => buttonToString c = buttonToString cbt) = false := by
          rw [List.any_eq_false]
          intro c hc
          simpa using h1 c hc
        simp [onInput, eventOf, hany]

/-- Witness for C1: start `Key:KeyE`, confirm `Mouse:Right`, cancel
`{Key:Escape}`; the two-event gesture emits exactly one command. -/
theorem basic_trigger_witness :
    (onInput ⟨false, .Key .KeyE, .Mouse .Right, [Key.Escape], []⟩
        (InputEvent.KeyPress Key.KeyE)).2 = false ∧
    (onInput ⟨false, .Key .KeyE, .Mouse .Right, [Key.Escape], []⟩
        (InputEvent.KeyPress Key.KeyE)).1.waiting_for_confirm = true ∧
    (onInput (onInput ⟨false, .Key .KeyE, .Mouse .Right, [Key.Escape], []⟩
        (InputEvent.KeyPress Key.KeyE)).1 (InputEvent.MousePress Button.Right)).2 = true ∧
    (onInput (onInput ⟨false, .Key .KeyE, .Mouse .Right, [Key.Escape], []⟩
        (InputEvent.KeyPress Key.KeyE)).1
        (InputEvent.MousePress Button.Right)).1.waiting_for_confirm = false :=
  basic_trigger ⟨false, .Key .KeyE, .Mouse .Right, [Key.Escape], []⟩ rfl
    (by intro c hc; simp at hc)

/-- Claim C2: `applyStart` satisfies the three-branch postcondition:
below capacity the new timer (with end instant `now` plus the duration)
is inserted on the configured side; at capacity with `overwrite_oldest`
the timer at index `length - 1` (when `add_new_on_left`) or index `0`
(otherwise) is removed and the new timer inserted on the configured
side; otherwise the pool is unchanged. -/
theorem applyStart_three_branches (c : Config) (ts : List Timer) (now : Nat)
    (hcap : 0 < c.max_timers) :
    (ts.length < c.max_timers →
      applyStart c ts now =
        if c.add_new_on_left then ({ end_time := now + c.timer_start_ms } : Timer) :: ts
        else ts ++ [({ end_time := now + c.timer_start_ms } : Timer)]) ∧
    (¬ ts.length < c.max_timers → c.overwrite_oldest = true →
      applyStart c ts now =
        if c.add_new_on_left then
          ({ end_time := now + c.timer_start_ms } : Timer) :: ts.eraseIdx (ts.length - 1)
        else ts.eraseIdx 0 ++ [({ end_time := now + c.timer_start_ms } : Timer)]) ∧
    (¬ ts.length < c.max_timers → c.overwrite_oldest = false →
      applyStart c ts now = ts) := by
  have hne : ¬ ts.length < c.max_timers → ts ≠ [] := by
    intro h hnil
    rw [hnil] at h
    simp at h
    omega
  refine ⟨?_, ?_, ?_⟩
  · intro h
    simp [applyStart, Timer.new, h]
  · intro h hov
    have h1 : ts.dropLast = ts.eraseIdx (ts.length - 1) := by
      apply List.dropLast_eq_eraseIdx
      have hn := hne h
      have hlen : ts.length ≠ 0 := by
        simpa [List.length_eq_zero] using hn
      omega
    have h2 : ts.eraseIdx 0 = ts.tail := by
      cases ts <;> rfl
    simp [applyStart, Timer.new, h, hov, ← h1, h2]
  · intro h hov
    simp [applyStart, Timer.new, h, hov]

/-- Witness for C2: capacity 2, full pool, overwrite on, insert on the
left: the tail timer is evicted and the new timer lands at index 0. -/
theorem applyStart_three_branches_witness :
    applyStart ⟨"", [], "", 1000, 2, true, true⟩ [⟨5⟩, ⟨7⟩] 0 = [⟨1000⟩, ⟨5⟩] :=
  (applyStart_three_branches ⟨"", [], "", 1000, 2, true, true⟩ [⟨5⟩, ⟨7⟩] 0
    (by decide)).2.1 (by decide) rfl

/-- Claim C3: remaining time is `max 0 (end - now)`: it is never
negative, a timer at exactly zero remaining is pruned by `tick` rather
than reported, and strictly before the end instant it is strictly
positive. -/
theorem timer_remaining_floor (t : Timer) (now : Nat) (ts : List Timer) :
    t.remaining_ms now = max 0 ((t.end_time : Int) - (now : Int)) ∧
    0 ≤ t.remaining_ms now ∧
    (t ∈ tick ts now ↔ t ∈ ts ∧ 0 < t.remaining_ms now) ∧
    (now < t.end_time → 0 < t.remaining_ms now) := by
  refine ⟨?_, ?_, ?_, ?_⟩
  · unfold Timer.remaining_ms
    split <;> omega
  · unfold Timer.remaining_ms
    split <;> omega
  · simp only [tick, List.mem_filter, Timer.is_finished, Bool.not_eq_eq_eq_not,
      Bool.not_true, decide_eq_false_iff_not, Int.not_le]
  · intro h
    unfold Timer.remaining_ms
    split <;> omega

/-- Witness for C3: a timer ending at 5 ms, observed at 3 ms, has 2 ms
remaining and survives a tick of the singleton pool. -/
theorem timer_remaining_floor_witness :
    Timer.remaining_ms ⟨5⟩ 3 = max 0 ((5 : Int) - (3 : Int)) ∧
    0 < Timer.remaining_ms ⟨5⟩ 3 :=
  ⟨(timer_remaining_floor ⟨5⟩ 3 []).1, (timer_remaining_floor ⟨5⟩ 3 []).2.2.2 (by decide)⟩

/-- Claim C4: in the armed state the cancel match is checked before the
confirm match, so an event whose binding is both among the cancel
bindings and equal to the confirm binding resets the detector to Idle
and emits no command. -/
theorem cancel_checked_first (d : SequenceDetector)
    (hw : d.waiting_for_confirm = true) :
    (∀ k kc, d.confirm_binding = InputBinding.Key kc →
      keyToString k = keyToString kc →
      d.cancel_keys.any (fun c => keyToString c = keyToString k) = true →
      onInput d (InputEvent.KeyPress k) = ({ d with waiting_for_confirm := false }, false)) ∧
    (∀ b bc, d.confirm_binding = InputBinding.Mouse bc →
      buttonToString b = buttonToString bc →
      d.cancel_buttons.any (fun c => buttonToString c = buttonToString b) = true →
      onInput d (InputEvent.MousePress b) = ({ d with waiting_for_confirm := false }, false)) := by
  constructor
  · intro k kc hcf heq hany
    simp [onInput, hw, hany]
  · intro b bc hcf heq hany
    simp [onInput, hw, hany]

/-- Witness for C4: right mouse button is both the confirm binding and a
cancel binding; pressing it while armed cancels and emits nothing. -/
theorem cancel_checked_first_witness :
    onInput ⟨true, .Key .KeyE, .Mouse .Right, [], [Button.Right]⟩
        (InputEvent.MousePress Button.Right) =
      (⟨false, .Key .KeyE, .Mouse .Right, [], [Button.Right]⟩, false) :=
  (cancel_checked_first ⟨true, .Key .KeyE, .Mouse .Right, [], [Button.Right]⟩ rfl).2
    Button.Right Button.Right rfl rfl (by decide)

/-- Claim C5: in the post-tick snapshot, the surviving timer at position
`p` of a pool of length `n` is displayed with number `n - p` when
`add_new_on_left` and `p + 1` otherwise. -/
theorem display_index_formula (c : Config) (ts : List Timer) (now p : Nat)
    (h : p < (snapshot c ts now).length) :
    ((snapshot c ts now).get ⟨p, h⟩).2 =
      if c.add_new_on_left then (tick ts now).length - p else p + 1 := by
  have h2 : p < (tick ts now).length := by
    simpa [snapshot] using h
  rw [List.get_eq_getElem]
  simp [snapshot, List.getElem_map, List.getElem_enum]

/-- Witness for C5: two live timers, insert on the left: the timer at
position 0 displays number 2. -/
theorem display_index_formula_witness :
    ((snapshot ⟨"", [], "", 1000, 3, true, false⟩ [⟨10⟩, ⟨20⟩] 0).get ⟨0, by decide⟩).2 =
      if (⟨"", [], "", 1000, 3, true, false⟩ : Config).add_new_on_left then
        (tick [⟨10⟩, ⟨20⟩] 0).length - 0
      else 0 + 1 :=
  display_index_formula ⟨"", [], "", 1000, 3, true, false⟩ [⟨10⟩, ⟨20⟩] 0 0 (by decide)

/-- Claim C6: matching is cross-variant-safe: a key press never matches
a mouse binding (as start, confirm, or cancel) and a mouse press never
matches a keyboard binding, whatever the identifiers. -/
theorem cross_variant_isolation (d : SequenceDetector) (k : Key) (b : Button) :
    (d.waiting_for_confirm = false → ∀ sb, d.start_binding = InputBinding.Mouse sb →
      onInput d (InputEvent.KeyPress k) = (d, false)) ∧
    (d.waiting_for_confirm = false → ∀ sk, d.start_binding = InputBinding.Key sk →
      onInput d (InputEvent.MousePress b) = (d, false)) ∧
    (d.waiting_for_confirm = true → d.cancel_keys = [] →
      ∀ cbt, d.confirm_binding = InputBinding.Mouse cbt →
      onInput d (InputEvent.KeyPress k) = (d, false)) ∧
    (d.waiting_for_confirm = true → d.cancel_buttons = [] →
      ∀ ck, d.confirm_binding = InputBinding.Key ck →
      onInput d (InputEvent.MousePress b) = (d, false)) := by
  refine ⟨?_, ?_, ?_, ?_⟩
  · intro hw sb hsb
    simp [onInput, hw, hsb]
  · intro hw sk hsk
    simp [onInput, hw, hsk]
  · intro hw hck cbt hcb
    simp [onInput, hw, hck, hcb]
  · intro hw hcb ck hcf
    simp [onInput, hw, hcb, hcf]

/-- Witness for C6: even with coinciding numeric identifiers, a key
press neither arms a mouse start binding nor confirms a mouse confirm
binding. -/
theorem cross_variant_isolation_witness :
    onInput ⟨false, .Mouse (.Unknown 5), .Key .KeyE, [], []⟩
        (InputEvent.KeyPress (Key.Unknown 5)) =
      (⟨false, .Mouse (.Unknown 5), .Key .KeyE, [], []⟩, false) ∧
    onInput ⟨true, .Key .KeyE, .Mouse (.Unknown 7), [], [Button.Left]⟩
        (InputEvent.KeyPress (Key.Unknown 7)) =
      (⟨true, .Key .KeyE, .Mouse (.Unknown 7), [], [Button.Left]⟩, false) :=
  ⟨(cross_variant_isolation ⟨false, .Mouse (.Unknown 5), .Key .KeyE, [], []⟩
      (Key.Unknown 5) Button.Left).1 rfl (Button.Unknown 5) rfl,
   (cross_variant_isolation ⟨true, .Key .KeyE, .Mouse (.Unknown 7), [], [Button.Left]⟩
      (Key.Unknown 7) Button.Left).2.2.1 rfl rfl (Button.Unknown 7) rfl⟩

/-- Claim C7: the pool length never exceeds the capacity: it holds for
the empty pool and is preserved by `applyStart` and by `tick`, for every
positive capacity and policy combination. -/
theorem pool_length_invariant (c : Config) (ts : List Timer) (now : Nat)
    (hcap : 0 < c.max_timers) :
    ([] : List Timer).length ≤ c.max_timers ∧
    (ts.length ≤ c.max_timers → (applyStart c ts now).length ≤ c.max_timers) ∧
    (ts.length ≤ c.max_timers → (tick ts now).length ≤ c.max_timers) := by
  refine ⟨by simp, ?_, ?_⟩
  · intro h
    simp only [applyStart]
    split
    · split <;> simp <;> omega
    · split
      · split
        · simp [List.length_dropLast]
          omega
        · simp [List.length_tail]
          omega
      · exact h
  · intro h
    exact le_trans (List.length_filter_le _ _) h

/-- Witness for C7: capacity 1, full pool, no overwrite: a further start
leaves the length at most 1, as does a tick. -/
theorem pool_length_invariant_witness :
    (applyStart ⟨"", [], "", 1000, 1, true, false⟩ [⟨5⟩] 0).length ≤ 1 ∧
    (tick [⟨5⟩] 0).length ≤ 1 :=
  ⟨(pool_length_invariant ⟨"", [], "", 1000, 1, true, false⟩ [⟨5⟩] 0 (by decide)).2.1
      (by decide),
   (pool_length_invariant ⟨"", [], "", 1000, 1, true, false⟩ [⟨5⟩] 0 (by decide)).2.2
      (by decide)⟩

/-- Claim C8: binding-string parsing accepts exactly the canonical
forms: a `"Key:"`-prefixed string parses the remainder as a key name, a
`"Mouse:"`-prefixed string parses the remainder as a button name, the
legacy alias `"RightMouse"` yields the right mouse button, and every
unprefixed, non-alias string is read as a keyboard key name. -/
theorem fromString_canonical (name : String) :
    (InputBinding.fromString ("Key:" ++ name) = (stringToKey name).map InputBinding.Key) ∧
    (InputBinding.fromString ("Mouse:" ++ name) = (stringToButton name).map InputBinding.Mouse) ∧
    (InputBinding.fromString "RightMouse" = some (InputBinding.Mouse Button.Right)) ∧
    (∀ s : String, dropPre "Key:".toList s.toList = none →
      dropPre "Mouse:".toList s.toList = none → s ≠ "RightMouse" →
      InputBinding.fromString s = (stringToKey s).map InputBinding.Key) := by
  refine ⟨?_, ?_, rfl, ?_⟩
  · unfold InputBinding.fromString
    rw [show ("Key:" ++ name).toList = "Key:".toList ++ name.toList from
      String.data_append _ _, dropPre_append]
    rfl
  · unfold InputBinding.fromString
    rw [show ("Mouse:" ++ name).toList = "Mouse:".toList ++ name.toList from
      String.data_append _ _]
    rw [show dropPre "Key:".toList ("Mouse:".toList ++ name.toList) = none from rfl]
    rw [dropPre_append]
    rfl
  · intro s h1 h2 h3
    unfold InputBinding.fromString
    rw [h1, h2]
    simp [h3]

/-- Witness for C8: the four canonical forms at concrete strings. -/
theorem fromString_canonical_witness :
    InputBinding.fromString ("Key:" ++ "KeyE") = (stringToKey "KeyE").map InputBinding.Key ∧
    InputBinding.fromString ("Mouse:" ++ "Left") =
      (stringToButton "Left").map InputBinding.Mouse ∧
    InputBinding.fromString "RightMouse" = some (InputBinding.Mouse Button.Right) ∧
    InputBinding.fromString "Escape" = (stringToKey "Escape").map InputBinding.Key :=
  ⟨(fromString_canonical "KeyE").1, (fromString_canonical "Left").2.1,
   (fromString_canonical "Left").2.2.1,
   (fromString_canonical "Left").2.2.2 "Escape" rfl rfl (by decide)⟩

/-- Claim C9: when a binding string does not parse, detector
construction still succeeds, falling back to the hardcoded `Key::KeyE`
start binding and `Button::Right` confirm binding. -/
theorem fallback_defaults (c : Config) :
    (InputBinding.fromString c.start_key = none →
      (SequenceDetector.new c).start_binding = InputBinding.Key Key.KeyE) ∧
    (InputBinding.fromString c.confirm_key = none →
      (SequenceDetector.new c).confirm_binding = InputBinding.Mouse Button.Right) := by
  constructor <;> intro h <;> simp [SequenceDetector.new, h]

/-- Witness for C9: unrecognized binding strings fall back to the
default start key and confirm button. -/
theorem fallback_defaults_witness :
    (SequenceDetector.new ⟨"garbage", [], "nonsense", 1000, 3, true, false⟩).start_binding =
      InputBinding.Key Key.KeyE ∧
    (SequenceDetector.new ⟨"garbage", [], "nonsense", 1000, 3, true, false⟩).confirm_binding =
      InputBinding.Mouse Button.Right :=
  ⟨(fallback_defaults ⟨"garbage", [], "nonsense", 1000, 3, true, false⟩).1 rfl,
   (fallback_defaults ⟨"garbage", [], "nonsense", 1000, 3, true, false⟩).2 rfl⟩

set_option maxHeartbeats 2000000 in
/-- Claim C10: round-trip: every binding over a named (non-`Unknown`)
key or button is recovered by parsing its canonical string form. -/
theorem roundTrip (b : InputBinding) (h : namedBinding b = true) :
    InputBinding.fromString b.toStr = some b := by
  cases b with
  | Key k => cases k <;> first | rfl | simp [namedBinding] at h
  | Mouse bt => cases bt <;> first | rfl | simp [namedBinding] at h

/-- Witness for C10: the round trip at the default start binding. -/
theorem roundTrip_witness :
    namedBinding (InputBinding.Key Key.KeyE) = true ∧
    InputBinding.fromString (InputBinding.toStr (InputBinding.Key Key.KeyE)) =
      some (InputBinding.Key Key.KeyE) :=
  ⟨rfl, roundTrip (InputBinding.Key Key.KeyE) rfl⟩

end ValSmokeTimer
